import Mathlib

/-!
Shallow embedding of `otel.go` from NathanBaulch/pgext: an OpenTelemetry
query hook for the go-pg ORM.  Go byte strings are modelled as `List Char`
(one `Char` per byte; all constants in the source are ASCII), the span is
modelled as the ordered list of operations the hook performs on it, and the
stack frames captured by `runtime.Callers` are passed as an explicit list.
-/

namespace Pgext

/-- A Go string, modelled as its sequence of (byte-sized) characters. -/
abbrev GoString := List Char

/-- Characters trimmed by Go's `strings.TrimSpace` (ASCII range). -/
def goSpaceByte (c : Char) : Bool :=
  c = ' ' || c = '\t' || c = '\n' || c = '\x0b' || c = '\x0c' || c = '\r'

/-- Go `strings.TrimSpace`: drop leading and trailing whitespace. -/
def goTrimSpace (s : GoString) : GoString :=
  ((s.dropWhile goSpaceByte).reverse.dropWhile goSpaceByte).reverse

/-- Go `strings.IndexByte`: index of the first occurrence of `c` in `s`
(`none` models the Go result `-1`). -/
def goIndexByte (s : GoString) (c : Char) : Option Nat :=
  match s with
  | [] => none
  | x :: rest => if x = c then some 0 else (goIndexByte rest c).map (· + 1)

/-- Go `strings.LastIndexByte`: index of the last occurrence of `c` in `s`. -/
def goLastIndexByte (s : GoString) (c : Char) : Option Nat :=
  match goIndexByte s.reverse c with
  | some i => some (s.length - 1 - i)
  | none => none

/-- Go `strings.Contains sub`: does `s` contain `sub` as a substring? -/
def goContains (s sub : GoString) : Bool :=
  match s with
  | [] => sub.isEmpty
  | _ :: rest => sub.isPrefixOf s || goContains rest sub

/-- The trimming applied to the resolved function name in `funcFileLine`:
`if ind := strings.LastIndexByte(fn, '/'); ind != -1 { fn = fn[ind+1:] }`. -/
def afterLastSlash (fn : GoString) : GoString :=
  match goLastIndexByte fn '/' with
  | some ind => fn.drop (ind + 1)
  | none => fn

/-- One frame produced by `runtime.CallersFrames`. -/
structure Frame where
  Function : GoString
  File : GoString
  Line : Int
deriving DecidableEq, Repr

/-- The `for` loop of `funcFileLine`: each visited frame overwrites the
accumulator `(fn, file, line)`; the loop breaks as soon as the current
frame's function name does not contain `pkg`, or when the frames run out. -/
def funcFileLineLoop (pkg : GoString) :
    List Frame → GoString × GoString × Int → GoString × GoString × Int
  | [], acc => acc
  | f :: rest, _ =>
    if goContains f.Function pkg then
      funcFileLineLoop pkg rest (f.Function, f.File, f.Line)
    else
      (f.Function, f.File, f.Line)

/-- `funcFileLine(pkg)` from the source, over an explicit list of captured
frames (the result of `runtime.Callers(3, pcs[:16])`, which is runtime
state outside the embedding). -/
def funcFileLine (pkg : GoString) (frames : List Frame) :
    GoString × GoString × Int :=
  let r := funcFileLineLoop pkg frames ([], [], 0)
  (afterLastSlash r.1, r.2.1, r.2.2)

/-- Errors carried by a query event.  `errNoRows` and `errMultiRows` are the
sentinel values `pg.ErrNoRows` and `pg.ErrMultiRows` compared by identity in
the source's `switch`; every other error is `other`. -/
inductive GoError where
  | errNoRows
  | errMultiRows
  | other (msg : GoString)
deriving DecidableEq, Repr

/-- Span status codes used by the hook (`codes.NotFound`, `codes.Internal`). -/
inductive StatusCode where
  | notFound
  | internal
deriving DecidableEq, Repr

/-- A span attribute (`label.String` / `label.Int`). -/
inductive Attr where
  | str (key : GoString) (val : GoString)
  | int (key : GoString) (val : Int)
deriving DecidableEq, Repr

/-- An operation performed on the span, in the order the hook performs them. -/
inductive SpanOp where
  | setName (n : GoString)
  | setStatus (c : StatusCode) (msg : GoString)
  | recordError (e : GoError)
  | setAttributes (attrs : List Attr)
  | endSpan
deriving DecidableEq, Repr

/-- `pg.Options` fields read by the hook from `db.Options()`. -/
structure Options where
  Addr : GoString
  User : GoString
  Database : GoString
deriving DecidableEq, Repr

/-- The row counts of `evt.Result` (Go `int`s). -/
structure PgResult where
  RowsAffected : Int
  RowsReturned : Int
deriving DecidableEq, Repr

instance : DecidableEq (Except GoError GoString) := fun a b =>
  match a, b with
  | Except.ok x, Except.ok y => decidable_of_iff (x = y) (by simp)
  | Except.error x, Except.error y => decidable_of_iff (x = y) (by simp)
  | Except.ok _, Except.error _ => isFalse (by simp)
  | Except.error _, Except.ok _ => isFalse (by simp)

/-- `pg.QueryEvent`, restricted to what the hook reads.
`Query` is `some op` when `evt.Query` implements the `queryOperation`
interface and its `Operation()` returns `op`; `none` otherwise.
`UnformattedQuery` / `FormattedQuery` model the two fallible renderings.
`DB` is `some opts` when `evt.DB` is a `*pg.DB` whose `Options()` is `opts`. -/
structure QueryEvent where
  Query : Option GoString
  UnformattedQuery : Except GoError GoString
  FormattedQuery : Except GoError GoString
  DB : Option Options
  Err : Option GoError
  Result : Option PgResult
deriving DecidableEq, Repr

/-- The ambient context: whether `trace.SpanFromContext(ctx)` is recording,
plus a counter of spans started through the tracer (to observe span
creation). -/
structure Ctx where
  spanRecording : Bool
  startedSpans : Nat
deriving DecidableEq, Repr

/-- `tracer.Start(ctx, "")`: returns a context carrying a fresh span.  The
new span's own recording state is decided by the external tracer and is not
modelled; the counter records that a span was started. -/
def tracerStart (ctx : Ctx) : Ctx :=
  { ctx with startedSpans := ctx.startedSpans + 1 }

/-- `orm.InsertOp` (go-pg's constant for insert queries). -/
def insertOp : GoString := "INSERT".data

/-- The library namespace passed to `funcFileLine`. -/
def pgPkg : GoString := "github.com/go-pg/pg".data

/-- The `queryLimit` constant. -/
def queryLimit : Nat := 5000

def kDbSystem : GoString := "db.system".data
def kDbStatement : GoString := "db.statement".data
def kFrameFunc : GoString := "frame.func".data
def kFrameFile : GoString := "frame.file".data
def kFrameLine : GoString := "frame.line".data
def kDbConnStr : GoString := "db.connection_string".data
def kDbUser : GoString := "db.user".data
def kDbName : GoString := "db.name".data
def kDbRowsAffected : GoString := "db.rows_affected".data

/-- The captured operation: `var operation orm.QueryOp` stays `""` unless
`evt.Query` implements `queryOperation`. -/
def capturedOp (evt : QueryEvent) : GoString :=
  evt.Query.getD []

/-- The query rendering step of `AfterQuery`: unformatted for inserts,
formatted otherwise; the first failure is propagated. -/
def renderQuery (evt : QueryEvent) : Except GoError GoString :=
  if capturedOp evt = insertOp then evt.UnformattedQuery
  else evt.FormattedQuery

/-- The span-naming step (source lines 64–71): a nonempty operation names the
span verbatim; otherwise the text up to the first space, cut at byte 20,
trimmed, names it; text without a space leaves the name unset. -/
def nameOpsOf (operation query : GoString) : List SpanOp :=
  if operation ≠ [] then [SpanOp.setName operation]
  else
    match goIndexByte query ' ' with
    | some idx =>
      let idx2 := if idx > 20 then 20 else idx
      [SpanOp.setName (goTrimSpace (query.take idx2))]
    | none => []

/-- The five attributes always attached (source lines 80–88). -/
def baseAttrs (query fn file : GoString) (line : Int) : List Attr :=
  [Attr.str kDbSystem ("postgres".data),
   Attr.str kDbStatement query,
   Attr.str kFrameFunc fn,
   Attr.str kFrameFile file,
   Attr.int kFrameLine line]

/-- The connection attributes, attached only when `evt.DB` is a `*pg.DB`
(source lines 90–97). -/
def connAttrs (db : Option Options) : List Attr :=
  match db with
  | some opt =>
    [Attr.str kDbConnStr opt.Addr,
     Attr.str kDbUser opt.User,
     Attr.str kDbName opt.Database]
  | none => []

/-- `BeforeQuery`: no-op on a non-recording span, otherwise starts a span. -/
def BeforeQuery (ctx : Ctx) (_evt : QueryEvent) : Ctx × Option GoError :=
  if !ctx.spanRecording then (ctx, none)
  else (tracerStart ctx, none)

/-- `AfterQuery`: returns the ordered span operations performed and the
returned error.  `deferred span.End()` makes `endSpan` the last operation on
every path past the recording check. -/
def AfterQuery (ctx : Ctx) (frames : List Frame) (evt : QueryEvent) :
    List SpanOp × Option GoError :=
  if !ctx.spanRecording then ([], none)
  else
    match renderQuery evt with
    | Except.error e => ([SpanOp.endSpan], some e)
    | Except.ok query0 =>
      let nOps := nameOpsOf (capturedOp evt) query0
      let query := query0.take queryLimit
      let r := funcFileLine pgPkg frames
      let attrs := baseAttrs query r.1 r.2.1 r.2.2 ++ connAttrs evt.DB
      match evt.Err with
      | some e =>
        let sOps :=
          if e = GoError.errNoRows ∨ e = GoError.errMultiRows then
            [SpanOp.setStatus StatusCode.notFound []]
          else
            [SpanOp.setStatus StatusCode.internal [], SpanOp.recordError e]
        (nOps ++ sOps ++ [SpanOp.setAttributes attrs, SpanOp.endSpan], none)
      | none =>
        let attrs2 :=
          match evt.Result with
          | some res =>
            let numRow :=
              if res.RowsAffected = 0 then res.RowsReturned
              else res.RowsAffected
            attrs ++ [Attr.int kDbRowsAffected numRow]
          | none => attrs
        (nOps ++ [SpanOp.setAttributes attrs2, SpanOp.endSpan], none)

/-- Is this span operation a status update or an error record? -/
def isStatusOp : SpanOp → Bool
  | SpanOp.setStatus _ _ => true
  | SpanOp.recordError _ => true
  | _ => false

/-- Is this span operation a name update? -/
def isSetNameOp : SpanOp → Bool
  | SpanOp.setName _ => true
  | _ => false

/-- Is this span operation the close (`span.End()`)? -/
def isEndOp : SpanOp → Bool
  | SpanOp.endSpan => true
  | _ => false

/-- The subsequence of status/record-error operations performed on the span. -/
def statusTrace (ops : List SpanOp) : List SpanOp :=
  ops.filter isStatusOp

/-- The subsequence of name-setting operations performed on the span. -/
def nameTrace (ops : List SpanOp) : List SpanOp :=
  ops.filter isSetNameOp

/-- How many times the span was closed. -/
def endCount (ops : List SpanOp) : Nat :=
  ops.countP isEndOp

/-- All attributes attached to the span, in order. -/
def attachedAttrs : List SpanOp → List Attr
  | [] => []
  | SpanOp.setAttributes attrs :: rest => attrs ++ attachedAttrs rest
  | _ :: rest => attachedAttrs rest

/-- The first string attribute with the given key. -/
def strAttr (attrs : List Attr) (key : GoString) : Option GoString :=
  match attrs with
  | [] => none
  | Attr.str k v :: rest => if k = key then some v else strAttr rest key
  | Attr.int _ _ :: rest => strAttr rest key

/-- The first integer attribute with the given key. -/
def intAttr (attrs : List Attr) (key : GoString) : Option Int :=
  match attrs with
  | [] => none
  | Attr.str _ _ :: rest => intAttr rest key
  | Attr.int k v :: rest => if k = key then some v else intAttr rest key

lemma statusTrace_append (l1 l2 : List SpanOp) :
    statusTrace (l1 ++ l2) = statusTrace l1 ++ statusTrace l2 :=
  List.filter_append ..

lemma nameTrace_append (l1 l2 : List SpanOp) :
    nameTrace (l1 ++ l2) = nameTrace l1 ++ nameTrace l2 :=
  List.filter_append ..

lemma statusTrace_nameOpsOf (o q : GoString) :
    statusTrace (nameOpsOf o q) = [] := by
  unfold nameOpsOf
  split
  · simp [statusTrace, isStatusOp]
  · split <;> simp [statusTrace, isStatusOp]

lemma nameTrace_nameOpsOf (o q : GoString) :
    nameTrace (nameOpsOf o q) = nameOpsOf o q := by
  unfold nameOpsOf
  split
  · simp [nameTrace, isSetNameOp]
  · split <;> simp [nameTrace, isSetNameOp]

lemma endCount_append (l1 l2 : List SpanOp) :
    endCount (l1 ++ l2) = endCount l1 + endCount l2 :=
  List.countP_append ..

lemma endCount_nameOpsOf (o q : GoString) :
    endCount (nameOpsOf o q) = 0 := by
  unfold nameOpsOf
  split
  · simp [endCount, isEndOp]
  · split <;> simp [endCount, isEndOp]

lemma attachedAttrs_append (l1 l2 : List SpanOp) :
    attachedAttrs (l1 ++ l2) = attachedAttrs l1 ++ attachedAttrs l2 := by
  induction l1 with
  | nil => simp [attachedAttrs]
  | cons op rest ih =>
    cases op <;> simp [attachedAttrs, ih]

lemma attachedAttrs_nameOpsOf (o q : GoString) :
    attachedAttrs (nameOpsOf o q) = [] := by
  unfold nameOpsOf
  split
  · simp [attachedAttrs]
  · split <;> simp [attachedAttrs]

lemma strAttr_str_cons_ne (k key v : GoString) (rest : List Attr)
    (h : k ≠ key) : strAttr (Attr.str k v :: rest) key = strAttr rest key := by
  simp [strAttr, h]

lemma strAttr_str_cons_eq (key v : GoString) (rest : List Attr) :
    strAttr (Attr.str key v :: rest) key = some v := by
  simp [strAttr]

lemma intAttr_str_cons (k v key : GoString) (rest : List Attr) :
    intAttr (Attr.str k v :: rest) key = intAttr rest key := by
  simp [intAttr]

lemma intAttr_int_cons_ne (k key : GoString) (v : Int) (rest : List Attr)
    (h : k ≠ key) : intAttr (Attr.int k v :: rest) key = intAttr rest key := by
  simp [intAttr, h]

lemma strAttr_baseAttrs_statement (q fn file : GoString) (line : Int)
    (rest : List Attr) :
    strAttr (baseAttrs q fn file line ++ rest) kDbStatement = some q := by
  unfold baseAttrs
  rw [List.cons_append, strAttr_str_cons_ne _ _ _ _ (by decide),
    List.cons_append, strAttr_str_cons_eq]

lemma intAttr_baseAttrs (q fn file : GoString) (line : Int)
    (rest : List Attr) :
    intAttr (baseAttrs q fn file line ++ rest) kDbRowsAffected =
      intAttr rest kDbRowsAffected := by
  unfold baseAttrs
  rw [List.cons_append, intAttr_str_cons, List.cons_append, intAttr_str_cons,
    List.cons_append, intAttr_str_cons, List.cons_append, intAttr_str_cons,
    List.cons_append, intAttr_int_cons_ne _ _ _ _ (by decide),
    List.nil_append]

lemma intAttr_connAttrs (db : Option Options) (rest : List Attr) :
    intAttr (connAttrs db ++ rest) kDbRowsAffected =
      intAttr rest kDbRowsAffected := by
  cases db <;> simp [connAttrs, intAttr]

/-- The `db.rows_affected` attribute computed on the no-error path
(source lines 107–113), as a function of the optional result. -/
def rowAttrsOf : Option PgResult → List Attr
  | some res =>
    [Attr.int kDbRowsAffected
      (if res.RowsAffected = 0 then res.RowsReturned else res.RowsAffected)]
  | none => []

lemma afterQuery_ok_err (ctx : Ctx) (frames : List Frame) (evt : QueryEvent)
    (q : GoString) (e : GoError)
    (hrec : ctx.spanRecording = true)
    (hq : renderQuery evt = Except.ok q)
    (he : evt.Err = some e) :
    AfterQuery ctx frames evt =
      (nameOpsOf (capturedOp evt) q ++
        (if e = GoError.errNoRows ∨ e = GoError.errMultiRows then
          [SpanOp.setStatus StatusCode.notFound []]
        else
          [SpanOp.setStatus StatusCode.internal [], SpanOp.recordError e]) ++
        [SpanOp.setAttributes
          (baseAttrs (q.take queryLimit) (funcFileLine pgPkg frames).1
            (funcFileLine pgPkg frames).2.1 (funcFileLine pgPkg frames).2.2 ++
            connAttrs evt.DB),
         SpanOp.endSpan], none) := by
  simp [AfterQuery, hrec, hq, he]

lemma afterQuery_ok_noerr (ctx : Ctx) (frames : List Frame)
    (evt : QueryEvent) (q : GoString)
    (hrec : ctx.spanRecording = true)
    (hq : renderQuery evt = Except.ok q)
    (he : evt.Err = none) :
    AfterQuery ctx frames evt =
      (nameOpsOf (capturedOp evt) q ++
        [SpanOp.setAttributes
          (baseAttrs (q.take queryLimit) (funcFileLine pgPkg frames).1
            (funcFileLine pgPkg frames).2.1 (funcFileLine pgPkg frames).2.2 ++
            connAttrs evt.DB ++ rowAttrsOf evt.Result),
         SpanOp.endSpan], none) := by
  cases hres : evt.Result <;>
    simp [AfterQuery, hrec, hq, he, hres, rowAttrsOf]

/-- A recording context and a non-recording context, used as witnesses. -/
def wCtx : Ctx := ⟨true, 0⟩

def wCtxOff : Ctx := ⟨false, 3⟩

/-- A sample captured stack: two library frames, then the application. -/
def wFrames : List Frame :=
  [⟨"github.com/go-pg/pg/v10/orm.query".data, "query.go".data, 12⟩,
   ⟨"github.com/go-pg/pg/v10.baseDB.Query".data, "base.go".data, 77⟩,
   ⟨"main.run".data, "main.go".data, 42⟩]

/-- A select-style event that finished with `pg.ErrNoRows`. -/
def wEvtNoRows : QueryEvent :=
  { Query := none,
    UnformattedQuery := Except.ok ("SELECT ?".data),
    FormattedQuery := Except.ok ("SELECT 1".data),
    DB := none,
    Err := some GoError.errNoRows,
    Result := none }

/-- An event whose formatted rendering fails. -/
def wEvtBadRender : QueryEvent :=
  { Query := none,
    UnformattedQuery := Except.ok ("SELECT ?".data),
    FormattedQuery := Except.error (GoError.other ("boom".data)),
    DB := none,
    Err := none,
    Result := none }

/-- C5: with a non-recording span, `BeforeQuery` returns the context
unchanged (in particular it starts no span) with a nil error, and
`AfterQuery` returns nil having performed no span operation at all. -/
theorem beforeAfter_not_recording_noop (ctx : Ctx) (frames : List Frame)
    (evt : QueryEvent) (h : ctx.spanRecording = false) :
    BeforeQuery ctx evt = (ctx, none) ∧ AfterQuery ctx frames evt = ([], none) := by
  rw [BeforeQuery, AfterQuery, h]
  simp

theorem beforeAfter_not_recording_noop_w :
    BeforeQuery wCtxOff wEvtNoRows = (wCtxOff, none) ∧
      AfterQuery wCtxOff wFrames wEvtNoRows = ([], none) :=
  beforeAfter_not_recording_noop wCtxOff wFrames wEvtNoRows rfl

/-- C6: `BeforeQuery` never returns an error, and `AfterQuery` returns a
non-nil error exactly when the span is recording and rendering the query
(unformatted for inserts, formatted otherwise) fails — and then it returns
that rendering error. -/
theorem only_render_error_propagates (ctx : Ctx) (frames : List Frame)
    (evt : QueryEvent) (e : GoError) :
    (BeforeQuery ctx evt).2 = none ∧
    ((AfterQuery ctx frames evt).2 = some e ↔
      ctx.spanRecording = true ∧ renderQuery evt = Except.error e) := by
  constructor
  · cases h : ctx.spanRecording <;> simp [BeforeQuery, h]
  · cases hrec : ctx.spanRecording
    · simp [AfterQuery, hrec]
    · cases hq : renderQuery evt with
      | error err => simp [AfterQuery, hrec, hq]
      | ok q => cases he : evt.Err <;> simp [AfterQuery, hrec, hq, he]

/-- C10: when rendering fails on a recording span, `AfterQuery` performs the
deferred close and nothing else — no name, no attributes, no status, no
error record — and returns the rendering error. -/
theorem afterQuery_render_error_only_closes (ctx : Ctx) (frames : List Frame)
    (evt : QueryEvent) (e : GoError)
    (hrec : ctx.spanRecording = true)
    (he : renderQuery evt = Except.error e) :
    AfterQuery ctx frames evt = ([SpanOp.endSpan], some e) := by
  simp [AfterQuery, hrec, he]

theorem afterQuery_render_error_only_closes_w :
    AfterQuery wCtx wFrames wEvtBadRender =
      ([SpanOp.endSpan], some (GoError.other ("boom".data))) :=
  afterQuery_render_error_only_closes wCtx wFrames wEvtBadRender
    (GoError.other ("boom".data)) rfl rfl

/-- C1: when the completed event carries an error (and the query rendered,
so the classification is reached), `pg.ErrNoRows` and `pg.ErrMultiRows`
yield exactly a NotFound status with no recorded error, and every other
error yields exactly an Internal status together with a record of that
error.  `statusTrace` is the full subsequence of status/record-error
operations, so its value also rules out any other status or record. -/
theorem afterQuery_error_classification (ctx : Ctx) (frames : List Frame)
    (evt : QueryEvent) (q : GoString) (e : GoError)
    (hrec : ctx.spanRecording = true)
    (hq : renderQuery evt = Except.ok q)
    (he : evt.Err = some e) :
    ((e = GoError.errNoRows ∨ e = GoError.errMultiRows) →
      statusTrace (AfterQuery ctx frames evt).1 =
        [SpanOp.setStatus StatusCode.notFound []]) ∧
    (¬ (e = GoError.errNoRows ∨ e = GoError.errMultiRows) →
      statusTrace (AfterQuery ctx frames evt).1 =
        [SpanOp.setStatus StatusCode.internal [], SpanOp.recordError e]) := by
  rw [afterQuery_ok_err ctx frames evt q e hrec hq he]
  dsimp only
  constructor
  · intro h
    rw [if_pos h, statusTrace_append, statusTrace_append, statusTrace_nameOpsOf]
    rfl
  · intro h
    rw [if_neg h, statusTrace_append, statusTrace_append, statusTrace_nameOpsOf]
    rfl

theorem afterQuery_error_classification_w :
    statusTrace (AfterQuery wCtx wFrames wEvtNoRows).1 =
      [SpanOp.setStatus StatusCode.notFound []] :=
  (afterQuery_error_classification wCtx wFrames wEvtNoRows
      ("SELECT 1".data) GoError.errNoRows rfl rfl rfl).1 (Or.inl rfl)

lemma getLast?_append_two (l : List SpanOp) (a b : SpanOp) :
    (l ++ [a, b]).getLast? = some b := by
  rw [show l ++ [a, b] = (l ++ [a]) ++ [b] by simp, List.getLast?_concat]

/-- C8: once the span is found recording, `AfterQuery` closes the span
exactly once on every exit path, and the close is the last operation —
including the early return on a rendering failure. -/
theorem afterQuery_closes_once (ctx : Ctx) (frames : List Frame)
    (evt : QueryEvent) (hrec : ctx.spanRecording = true) :
    endCount (AfterQuery ctx frames evt).1 = 1 ∧
    (AfterQuery ctx frames evt).1.getLast? = some SpanOp.endSpan := by
  cases hq : renderQuery evt with
  | error e =>
    rw [afterQuery_render_error_only_closes ctx frames evt e hrec hq]
    constructor
    · rfl
    · rfl
  | ok q =>
    cases he : evt.Err with
    | some e =>
      rw [afterQuery_ok_err ctx frames evt q e hrec hq he]
      refine ⟨?_, ?_⟩
      · rw [endCount_append, endCount_append, endCount_nameOpsOf]
        split <;> simp [endCount, isEndOp, List.countP_cons]
      · rw [List.append_assoc, ← List.append_assoc]
        exact getLast?_append_two _ _ _
    | none =>
      rw [afterQuery_ok_noerr ctx frames evt q hrec hq he]
      refine ⟨?_, ?_⟩
      · rw [endCount_append, endCount_nameOpsOf]
        simp [endCount, isEndOp, List.countP_cons]
      · exact getLast?_append_two _ _ _

lemma attachedAttrs_status (e : GoError) :
    attachedAttrs
      (if e = GoError.errNoRows ∨ e = GoError.errMultiRows then
        [SpanOp.setStatus StatusCode.notFound []]
      else
        [SpanOp.setStatus StatusCode.internal [], SpanOp.recordError e]) = [] := by
  split <;> rfl

/-- The row-count attribute as actually gated by the source: only attached
when the event carries no error. -/
def rowAttrs (err : Option GoError) (result : Option PgResult) : List Attr :=
  match err with
  | some _ => []
  | none => rowAttrsOf result

/-- On the success path the attributes attached to the span are exactly the
base, connection, and (error-gated) row-count attributes, in order. -/
lemma afterQuery_attachedAttrs (ctx : Ctx) (frames : List Frame)
    (evt : QueryEvent) (q : GoString)
    (hrec : ctx.spanRecording = true)
    (hq : renderQuery evt = Except.ok q) :
    attachedAttrs (AfterQuery ctx frames evt).1 =
      baseAttrs (q.take queryLimit) (funcFileLine pgPkg frames).1
          (funcFileLine pgPkg frames).2.1 (funcFileLine pgPkg frames).2.2 ++
        connAttrs evt.DB ++ rowAttrs evt.Err evt.Result := by
  cases he : evt.Err with
  | some e =>
    rw [afterQuery_ok_err ctx frames evt q e hrec hq he]
    dsimp only
    rw [attachedAttrs_append, attachedAttrs_append, attachedAttrs_nameOpsOf,
      attachedAttrs_status]
    simp [attachedAttrs, rowAttrs]
  | none =>
    rw [afterQuery_ok_noerr ctx frames evt q hrec hq he]
    dsimp only
    rw [attachedAttrs_append, attachedAttrs_nameOpsOf]
    simp [attachedAttrs, rowAttrs]

/-- An insert-kind event, used as a witness. -/
def wEvtInsert : QueryEvent :=
  { Query := some ("INSERT".data),
    UnformattedQuery := Except.ok ("INSERT INTO t VALUES (?)".data),
    FormattedQuery := Except.ok ("INSERT INTO t VALUES (1)".data),
    DB := some ⟨"localhost:5432".data, "bob".data, "appdb".data⟩,
    Err := none,
    Result := some ⟨0, 1⟩ }

/-- C2: the `db.statement` text attached to the span is the unformatted
rendering for insert-kind queries and the fully formatted rendering for
every other kind (including an unrecognized or absent kind, where the
captured operation stays empty), in both cases up to the 5000-byte
truncation that C4 describes. -/
theorem afterQuery_statement_render_choice (ctx : Ctx) (frames : List Frame)
    (evt : QueryEvent) (q : GoString)
    (hrec : ctx.spanRecording = true) :
    (capturedOp evt = insertOp → evt.UnformattedQuery = Except.ok q →
      strAttr (attachedAttrs (AfterQuery ctx frames evt).1) kDbStatement =
        some (q.take queryLimit)) ∧
    (capturedOp evt ≠ insertOp → evt.FormattedQuery = Except.ok q →
      strAttr (attachedAttrs (AfterQuery ctx frames evt).1) kDbStatement =
        some (q.take queryLimit)) := by
  constructor
  · intro hop hu
    have hq : renderQuery evt = Except.ok q := by
      rw [renderQuery, if_pos hop]
      exact hu
    rw [afterQuery_attachedAttrs ctx frames evt q hrec hq, List.append_assoc,
      strAttr_baseAttrs_statement]
  · intro hop hf
    have hq : renderQuery evt = Except.ok q := by
      rw [renderQuery, if_neg hop]
      exact hf
    rw [afterQuery_attachedAttrs ctx frames evt q hrec hq, List.append_assoc,
      strAttr_baseAttrs_statement]

theorem afterQuery_statement_render_choice_w :
    strAttr (attachedAttrs (AfterQuery wCtx wFrames wEvtInsert).1)
        kDbStatement =
      some (("INSERT INTO t VALUES (?)".data).take queryLimit) :=
  (afterQuery_statement_render_choice wCtx wFrames wEvtInsert
      ("INSERT INTO t VALUES (?)".data) rfl).1 rfl rfl

/-- C4: the attached `db.statement` is exactly the first
`min (length q) 5000` characters of the rendered text `q`: the text is
truncated at 5000 and never extended, and a text within the limit is
attached unchanged. -/
theorem afterQuery_statement_truncation (ctx : Ctx) (frames : List Frame)
    (evt : QueryEvent) (q : GoString)
    (hrec : ctx.spanRecording = true)
    (hq : renderQuery evt = Except.ok q) :
    strAttr (attachedAttrs (AfterQuery ctx frames evt).1) kDbStatement =
      some (q.take queryLimit) ∧
    (q.take queryLimit).length = min q.length queryLimit ∧
    (q.length ≤ queryLimit → q.take queryLimit = q) := by
  refine ⟨?_, ?_, ?_⟩
  · rw [afterQuery_attachedAttrs ctx frames evt q hrec hq, List.append_assoc,
      strAttr_baseAttrs_statement]
  · rw [List.length_take, Nat.min_comm]
  · exact fun h => List.take_of_length_le h

theorem afterQuery_statement_truncation_w :
    strAttr (attachedAttrs (AfterQuery wCtx wFrames wEvtNoRows).1)
        kDbStatement =
      some (("SELECT 1".data).take queryLimit) ∧
    (("SELECT 1".data).take queryLimit).length =
      min ("SELECT 1".data).length queryLimit ∧
    (("SELECT 1".data).length ≤ queryLimit →
      ("SELECT 1".data).take queryLimit = "SELECT 1".data) :=
  afterQuery_statement_truncation wCtx wFrames wEvtNoRows
    ("SELECT 1".data) rfl rfl

lemma nameTrace_status (e : GoError) :
    nameTrace
      (if e = GoError.errNoRows ∨ e = GoError.errMultiRows then
        [SpanOp.setStatus StatusCode.notFound []]
      else
        [SpanOp.setStatus StatusCode.internal [], SpanOp.recordError e]) = [] := by
  split <;> rfl

/-- On the success path the name-setting operations are exactly those of the
naming step. -/
lemma afterQuery_nameTrace (ctx : Ctx) (frames : List Frame)
    (evt : QueryEvent) (q : GoString)
    (hrec : ctx.spanRecording = true)
    (hq : renderQuery evt = Except.ok q) :
    nameTrace (AfterQuery ctx frames evt).1 = nameOpsOf (capturedOp evt) q := by
  cases he : evt.Err with
  | some e =>
    rw [afterQuery_ok_err ctx frames evt q e hrec hq he]
    dsimp only
    rw [nameTrace_append, nameTrace_append, nameTrace_nameOpsOf, nameTrace_status]
    simp [nameTrace, isSetNameOp]
  | none =>
    rw [afterQuery_ok_noerr ctx frames evt q hrec hq he]
    dsimp only
    rw [nameTrace_append, nameTrace_nameOpsOf]
    simp [nameTrace, isSetNameOp]

/-- The source's cap `if idx > 20 { idx = 20 }` is `min idx 20`. -/
lemma goCapAt20 (idx : Nat) : (if idx > 20 then 20 else idx) = min idx 20 := by
  rcases le_or_lt idx 20 with h | h
  · rw [if_neg (by omega), Nat.min_eq_left h]
  · rw [if_pos h, Nat.min_eq_right (by omega)]

/-- C3: a captured (nonempty) operation kind names the span verbatim; with no
captured kind, a query text containing a space names the span with the
whitespace-trimmed prefix up to the first space, the cut index capped at 20;
a text without a space never sets the name. -/
theorem afterQuery_span_name (ctx : Ctx) (frames : List Frame)
    (evt : QueryEvent) (q : GoString)
    (hrec : ctx.spanRecording = true)
    (hq : renderQuery evt = Except.ok q) :
    (capturedOp evt ≠ [] →
      nameTrace (AfterQuery ctx frames evt).1 =
        [SpanOp.setName (capturedOp evt)]) ∧
    (capturedOp evt = [] → ∀ idx, goIndexByte q ' ' = some idx →
      nameTrace (AfterQuery ctx frames evt).1 =
        [SpanOp.setName (goTrimSpace (q.take (min idx 20)))]) ∧
    (capturedOp evt = [] → goIndexByte q ' ' = none →
      nameTrace (AfterQuery ctx frames evt).1 = []) := by
  rw [afterQuery_nameTrace ctx frames evt q hrec hq]
  refine ⟨fun hop => ?_, fun hop idx hidx => ?_, fun hop hidx => ?_⟩
  · rw [nameOpsOf, if_pos hop]
  · rw [nameOpsOf, if_neg (by simp [hop]), hidx]
    dsimp only
    rw [goCapAt20]
  · rw [nameOpsOf, if_neg (by simp [hop]), hidx]

theorem afterQuery_span_name_w :
    (capturedOp wEvtInsert ≠ [] →
      nameTrace (AfterQuery wCtx wFrames wEvtInsert).1 =
        [SpanOp.setName (capturedOp wEvtInsert)]) ∧
    (capturedOp wEvtInsert = [] → ∀ idx,
      goIndexByte ("INSERT INTO t VALUES (?)".data) ' ' = some idx →
      nameTrace (AfterQuery wCtx wFrames wEvtInsert).1 =
        [SpanOp.setName
          (goTrimSpace (("INSERT INTO t VALUES (?)".data).take (min idx 20)))]) ∧
    (capturedOp wEvtInsert = [] →
      goIndexByte ("INSERT INTO t VALUES (?)".data) ' ' = none →
      nameTrace (AfterQuery wCtx wFrames wEvtInsert).1 = []) :=
  afterQuery_span_name wCtx wFrames wEvtInsert
    ("INSERT INTO t VALUES (?)".data) rfl rfl

lemma intAttr_connAttrs_append (db : Option Options) (rest : List Attr) :
    intAttr (connAttrs db ++ rest) kDbRowsAffected =
      intAttr rest kDbRowsAffected := by
  cases db <;> simp [connAttrs, intAttr]

/-- The `db.rows_affected` lookup over the attached attributes reduces to the
row-attribute block. -/
lemma afterQuery_rows_lookup (ctx : Ctx) (frames : List Frame)
    (evt : QueryEvent) (q : GoString)
    (hrec : ctx.spanRecording = true)
    (hq : renderQuery evt = Except.ok q) :
    intAttr (attachedAttrs (AfterQuery ctx frames evt).1) kDbRowsAffected =
      intAttr (rowAttrs evt.Err evt.Result) kDbRowsAffected := by
  rw [afterQuery_attachedAttrs ctx frames evt q hrec hq, List.append_assoc,
    intAttr_baseAttrs, intAttr_connAttrs_append]

/-- C7: with no error and a result present, the span carries a
`db.rows_affected` attribute equal to the result's rows-affected count,
falling back to its rows-returned count when rows-affected is zero; with an
error or no result, no `db.rows_affected` attribute is attached. -/
theorem afterQuery_rows_affected (ctx : Ctx) (frames : List Frame)
    (evt : QueryEvent) (q : GoString) (r : PgResult)
    (hrec : ctx.spanRecording = true)
    (hq : renderQuery evt = Except.ok q) :
    (evt.Err = none → evt.Result = some r →
      intAttr (attachedAttrs (AfterQuery ctx frames evt).1) kDbRowsAffected =
        some (if r.RowsAffected = 0 then r.RowsReturned else r.RowsAffected)) ∧
    (evt.Err ≠ none ∨ evt.Result = none →
      intAttr (attachedAttrs (AfterQuery ctx frames evt).1) kDbRowsAffected =
        none) := by
  rw [afterQuery_rows_lookup ctx frames evt q hrec hq]
  constructor
  · intro he hres
    simp [rowAttrs, he, hres, rowAttrsOf, intAttr]
  · intro h
    rcases h with h | h
    · cases he : evt.Err with
      | some e => rfl
      | none => exact absurd he h
    · cases he : evt.Err with
      | some e => rfl
      | none => rw [h]; rfl

theorem afterQuery_rows_affected_w :
    (wEvtInsert.Err = none → wEvtInsert.Result = some ⟨0, 1⟩ →
      intAttr (attachedAttrs (AfterQuery wCtx wFrames wEvtInsert).1)
          kDbRowsAffected =
        some (if (0 : Int) = 0 then (1 : Int) else 0)) ∧
    (wEvtInsert.Err ≠ none ∨ wEvtInsert.Result = none →
      intAttr (attachedAttrs (AfterQuery wCtx wFrames wEvtInsert).1)
          kDbRowsAffected = none) :=
  afterQuery_rows_affected wCtx wFrames wEvtInsert
    ("INSERT INTO t VALUES (?)".data) ⟨0, 1⟩ rfl rfl

/-- The report a frame contributes: its function, file, and line. -/
def frameReport (f : Frame) : GoString × GoString × Int :=
  (f.Function, f.File, f.Line)

lemma funcFileLineLoop_find (pkg : GoString) (frames : List Frame)
    (acc : GoString × GoString × Int) (f : Frame)
    (hf : frames.find? (fun fr => ! goContains fr.Function pkg) = some f) :
    funcFileLineLoop pkg frames acc = frameReport f := by
  induction frames generalizing acc with
  | nil => simp [List.find?] at hf
  | cons g rest ih =>
    by_cases hc : goContains g.Function pkg
    · have hf' : rest.find? (fun fr => ! goContains fr.Function pkg) = some f := by
        simpa [List.find?_cons, hc] using hf
      rw [funcFileLineLoop, if_pos hc, ih _ hf']
    · have hg : g = f := by
        simpa [List.find?_cons, hc] using hf
      rw [funcFileLineLoop, if_neg hc, hg]
      rfl

lemma funcFileLineLoop_exhaust (pkg : GoString) (frames : List Frame)
    (acc : GoString × GoString × Int) (f : Frame)
    (hnone : frames.find? (fun fr => ! goContains fr.Function pkg) = none)
    (hl : frames.getLast? = some f) :
    funcFileLineLoop pkg frames acc = frameReport f := by
  induction frames generalizing acc with
  | nil => simp at hl
  | cons g rest ih =>
    have hc : goContains g.Function pkg := by
      by_contra hc
      simp [List.find?_cons, hc] at hnone
    have hnone' : rest.find? (fun fr => ! goContains fr.Function pkg) = none := by
      simpa [List.find?_cons, hc] using hnone
    cases rest with
    | nil =>
      have hg : g = f := by simpa using hl
      rw [funcFileLineLoop, if_pos hc, funcFileLineLoop, hg]
      rfl
    | cons g2 rest2 =>
      have hl' : (g2 :: rest2).getLast? = some f := by
        simpa [List.getLast?_cons_cons] using hl
      rw [funcFileLineLoop, if_pos hc, ih _ hnone' hl']

/-- C9: over the captured frames (at most 16, starting 3 frames above the
resolver's own invocation — the capture itself is runtime state passed in as
`frames`), the resolver walks innermost to outermost and reports the first
frame whose function name does not contain the namespace substring, or the
outermost captured frame when every name contains it; the reported function
name is cut to the part after the final '/'. -/
theorem funcFileLine_resolves (pkg : GoString) (frames : List Frame)
    (_hlen : frames.length ≤ 16) :
    (∀ f, frames.find? (fun fr => ! goContains fr.Function pkg) = some f →
      funcFileLine pkg frames = (afterLastSlash f.Function, f.File, f.Line)) ∧
    (frames.find? (fun fr => ! goContains fr.Function pkg) = none →
      ∀ f, frames.getLast? = some f →
        funcFileLine pkg frames = (afterLastSlash f.Function, f.File, f.Line)) := by
  constructor
  · intro f hf
    rw [funcFileLine, funcFileLineLoop_find pkg frames _ f hf]
    rfl
  · intro hnone f hl
    rw [funcFileLine, funcFileLineLoop_exhaust pkg frames _ f hnone hl]
    rfl

theorem funcFileLine_resolves_w :
    (∀ f, wFrames.find?
        (fun fr => ! goContains fr.Function pgPkg) = some f →
      funcFileLine pgPkg wFrames =
        (afterLastSlash f.Function, f.File, f.Line)) ∧
    (wFrames.find? (fun fr => ! goContains fr.Function pgPkg) = none →
      ∀ f, wFrames.getLast? = some f →
        funcFileLine pgPkg wFrames =
          (afterLastSlash f.Function, f.File, f.Line)) :=
  funcFileLine_resolves pgPkg wFrames (by decide)

theorem afterQuery_closes_once_w :
    endCount (AfterQuery wCtx wFrames wEvtBadRender).1 = 1 ∧
    (AfterQuery wCtx wFrames wEvtBadRender).1.getLast? = some SpanOp.endSpan :=
  afterQuery_closes_once wCtx wFrames wEvtBadRender rfl

end Pgext
